import Mathlib

/-!
Verification of the LocaleDB ETL loading engine (momacs/localedb).

This file is a shallow embedding of the locale-resolution and loading logic
of `localedb_man.py` and of the read accessors of `localedb.py`, together
with theorems settling the specification claims about them.

Conventions of the embedding:
  * SQL tables are Lean lists of typed row structures; SQL NULL is `Option`.
  * `IS NOT DISTINCT FROM` (null-aware equality) is plain `=` on `Option`;
    plain SQL `=` with a possibly-NULL parameter never matches a NULL.
  * Python exceptions / `sys.exit` become explicit result constructors.
  * CSV cells are `String`s; the uniform transform `'' -> None` becomes
    `optOfCell`.
-/

namespace LocaleDB

/-- A row of the `main.locale` table (columns as in `load_locales_jhu`,
`localedb_man.py` line 351).  Integer-typed DB columns are modelled typed;
the text-to-column cast performed by the relational store on insert is out
of scope per the spec (section 6). -/
structure Locale where
  id : Nat
  iso2 : Option String
  iso3 : Option String
  iso_num : Option Int
  fips : Option String
  admin0 : Option String
  admin1 : Option String
  admin2 : Option String
  lat : Option String
  long : Option String
  pop : Option Int
deriving DecidableEq, Repr

/-- One transformed source row of the JHU UID lookup table, with the fields
in their source column positions (`localedb_man.py` line 352 reads the row
as `r[0], r[1], r[2], r[3], r[4], r[7], r[6], r[5], r[8], r[9], r[11]`). -/
structure JhuRow where
  uid : Nat
  iso2 : Option String
  iso3 : Option String
  code3 : Option Int
  fips : Option String
  admin2 : Option String
  admin1 : Option String
  admin0 : Option String
  lat : Option String
  long : Option String
  population : Option Int
deriving DecidableEq, Repr

/-- The column permutation of the INSERT in `MainSchema.load_locales_jhu`
(`localedb_man.py` lines 350-353): source column 7 is `admin0`, 6 is
`admin1`, 5 is `admin2`. -/
def jhuToLocale (r : JhuRow) : Locale :=
  { id := r.uid, iso2 := r.iso2, iso3 := r.iso3, iso_num := r.code3,
    fips := r.fips, admin0 := r.admin0, admin1 := r.admin1, admin2 := r.admin2,
    lat := r.lat, long := r.long, pop := r.population }

/-- `MainSchema.load_locales_jhu` (`localedb_man.py` lines 338-355): inside
one transaction, `DELETE FROM main.locale;` unconditionally, then insert one
locale row per source row.  The resulting table does not depend on the prior
table contents. -/
def load_locales_jhu (rows : List JhuRow) (_prev : List Locale) : List Locale :=
  rows.map jhuToLocale

/-- The count columns of the `dis.dyn` table that the COVID-19 dynamics
source passes contribute (`n_conf`, `n_dead`, `n_rec`). -/
inductive DynCol
  | nConf
  | nDead
  | nRec
deriving DecidableEq, Repr

/-- A row of the `dyn_load` staging table (`LIKE dis.dyn`): primary key
(disease_id, locale_id, day), plus `day_i` and the three count columns.
Count values are carried as the raw CSV cell (`Option String`), exactly what
the loader passes to the INSERT. -/
structure DynRow where
  disease_id : Nat
  locale_id : Nat
  day : String
  day_i : Int
  n_conf : Option String
  n_dead : Option String
  n_rec : Option String
deriving DecidableEq, Repr

/-- Write one count column of a dyn row. -/
def DynRow.setCol (r : DynRow) (c : DynCol) (v : Option String) : DynRow :=
  match c with
  | .nConf => { r with n_conf := v }
  | .nDead => { r with n_dead := v }
  | .nRec => { r with n_rec := v }

/-- Read one count column of a dyn row. -/
def DynRow.getCol (r : DynRow) (c : DynCol) : Option String :=
  match c with
  | .nConf => r.n_conf
  | .nDead => r.n_dead
  | .nRec => r.n_rec

/-- Does a dyn row have the given primary key (disease_id, locale_id, day)? -/
def dynKeyMatches (r : DynRow) (did lid : Nat) (day : String) : Bool :=
  decide (r.disease_id = did) && decide (r.locale_id = lid) && decide (r.day = day)

/-- A fresh dyn row as inserted by the per-pass statement: the key columns,
`day_i`, and the single contributed count column are set; the other count
columns take their defaults (NULL). -/
def mkDynRow (did lid : Nat) (day : String) (dayI : Int) (c : DynCol)
    (v : Option String) : DynRow :=
  DynRow.setCol ⟨did, lid, day, dayI, none, none, none⟩ c v

/-- The per-cell upsert of `DiseaseSchema.load_covid_19_dyn_ds`
(`localedb_man.py` lines 253-258):
`INSERT INTO dyn_load (disease_id, locale_id, day, day_i, col)
 VALUES ... ON CONFLICT ON CONSTRAINT dyn_load_pkey DO UPDATE SET col = v
 WHERE d.disease_id = did AND d.locale_id = lid AND d.day = day`.
On a primary-key conflict only the contributed column `c` is updated on the
conflicting row; without a conflict a fresh row with default (NULL) other
columns is appended. -/
def upsertDyn (tbl : List DynRow) (did lid : Nat) (day : String) (dayI : Int)
    (c : DynCol) (v : Option String) : List DynRow :=
  if tbl.any (fun r => dynKeyMatches r did lid day) then
    tbl.map (fun r => if dynKeyMatches r did lid day then r.setCol c v else r)
  else
    tbl ++ [mkDynRow did lid day dayI c v]

/-- One transformed row of a global CSSE time-series file: column 0 is
`Province/State` (matched against `admin1`), column 1 is `Country/Region`
(matched against `admin0`); `vals` are the date columns as
(header day, cell) pairs starting at `date_col_idx_0`. -/
structure GlobRow where
  admin1 : Option String
  admin0 : Option String
  vals : List (String × Option String)
deriving DecidableEq, Repr

/-- The locale lookup of the global dynamics pass (`localedb_man.py` line
243): `admin0 IS NOT DISTINCT FROM r[1] AND admin1 IS NOT DISTINCT FROM r[0]
AND admin2 IS NULL`. -/
def globLocaleMatch (l : Locale) (r : GlobRow) : Bool :=
  decide (l.admin0 = r.admin0) && decide (l.admin1 = r.admin1) &&
    decide (l.admin2 = none)

/-- The `execute_batch` of one source row (`localedb_man.py` lines 253-258):
one upsert per date column `j`, with `day = header[j]` and
`day_i = j - date_col_idx_0 + 1` (position in `vals` plus one). -/
def applyGlobRowVals (tbl : List DynRow) (did lid : Nat) (c : DynCol)
    (vals : List (String × Option String)) : List DynRow :=
  vals.enum.foldl
    (fun t iv => upsertDyn t did lid iv.2.1 ((iv.1 : Int) + 1) c iv.2.2) tbl

/-- Result of one dataset load: either the staging table after the pass, or
a process exit (`sys.exit(1)`, `localedb_man.py` line 250) carrying the
reported key fields of the offending source row. -/
inductive DsResult
  | ok (tbl : List DynRow)
  | exit (code : Nat) (key : List (Option String))
deriving DecidableEq, Repr

/-- The row loop of `DiseaseSchema.load_covid_19_dyn_ds` for a global pass
(`localedb_man.py` lines 241-258): resolve each row's locale; on zero
matches print the offending key, roll back and `sys.exit(1)`; otherwise
`fetchone()` takes the first result row and the date cells are upserted. -/
def loadDynDsGlob (locs : List Locale) (did : Nat) (c : DynCol)
    (rows : List GlobRow) (tbl : List DynRow) : DsResult :=
  match rows with
  | [] => .ok tbl
  | r :: rest =>
    match (locs.filter (fun l => globLocaleMatch l r)).head? with
    | none => .exit 1 [r.admin1, r.admin0]
    | some l => loadDynDsGlob locs did c rest (applyGlobRowVals tbl did l.id c r.vals)

/-- The sequential dataset passes of `DiseaseSchema.load_covid_19_dyn`
(`localedb_man.py` lines 213-218): each pass contributes one column into the
shared staging table; a `sys.exit` in any pass terminates the process, so no
later pass runs. -/
def runDatasets (locs : List Locale) (did : Nat)
    (dss : List (DynCol × List GlobRow)) (tbl : List DynRow) : DsResult :=
  match dss with
  | [] => .ok tbl
  | (c, rows) :: rest =>
    match loadDynDsGlob locs did c rows tbl with
    | .ok tbl2 => runDatasets locs did rest tbl2
    | .exit code key => .exit code key

/-- The committed `dis.dyn` contents after a run: the consolidation commits
only on the `.ok` path; the failure path rolls the transaction back
(`localedb_man.py` line 249), leaving the previously committed rows. -/
def committedDyn (prev : List DynRow) (res : DsResult) : List DynRow :=
  match res with
  | .ok t => t
  | .exit _ _ => prev

/-- The locale-related session state of the read accessor `LocaleDB` object
(`localedb.py` lines 40-42): `locale_id`, `locale_iso_num`, `locale_fips`,
all unset (None) until a set_locale call succeeds. -/
structure Session where
  locale_id : Option Nat
  locale_iso_num : Option Int
  locale_fips : Option String
deriving DecidableEq, Repr

/-- Error raised by `set_locale_by_name` when no row matches
(`UnknownLocaleError`, `localedb.py` line 310), carrying the name key. -/
structure UnknownLocaleErr where
  admin0 : String
  admin1 : Option String
  admin2 : Option String
deriving DecidableEq, Repr

/-- The WHERE clause of `set_locale_by_name` (`localedb.py` line 308):
`admin0 = %s AND admin1 IS NOT DISTINCT FROM %s AND admin2 IS NOT DISTINCT
FROM %s` — plain equality on `admin0` (a NULL `admin0` never matches),
null-aware on the other two. -/
def nameMatch (a0 : String) (a1 a2 : Option String) (l : Locale) : Bool :=
  decide (l.admin0 = some a0) && decide (l.admin1 = a1) && decide (l.admin2 = a2)

/-- `LocaleDB.set_locale_by_name` (`localedb.py` lines 306-320): run the
name query; raise `UnknownLocaleError` on zero rows, otherwise `fetchone()`
takes the first result row and its id, iso_num and fips become the session
state.  No other-than-zero cardinality check is performed. -/
def set_locale_by_name (locs : List Locale) (_s : Session) (a0 : String)
    (a1 a2 : Option String) : Except UnknownLocaleErr Session :=
  match (locs.filter (nameMatch a0 a1 a2)).head? with
  | none => .error ⟨a0, a1, a2⟩
  | some r => .ok ⟨some r.id, r.iso_num, r.fips⟩

/-- One row insert of `INSERT INTO dest SELECT * FROM tmp ON CONFLICT DO
NOTHING` (`localedb_man.py` line 482, `src/localedb_man.py` line 137): the
row is skipped when a row with the same unique key is already present.
Modelled from the spec: the destination tables' unique constraints are in
the database DDL, which is not part of these sources; per the spec each
population table is "keyed by a source-provided integer id unique within a
state", abstracted here as the key function `key`. -/
def insertOnConflictDoNothing {α κ : Type} [DecidableEq κ] (key : α → κ)
    (tbl : List α) (r : α) : List α :=
  if tbl.any (fun x => decide (key x = key r)) then tbl else tbl ++ [r]

/-- The destination insert of `PopSchema.load_county_txt_files`
(`localedb_man.py` lines 481-483) over a whole staged batch: each staged row
is inserted if absent, in order. -/
def load_county_txt_files {α κ : Type} [DecidableEq κ] (key : α → κ)
    (tbl : List α) (rows : List α) : List α :=
  rows.foldl (insertOnConflictDoNothing key) tbl

/-- The three destination tables of `VaxSchema.load_vax`: `age`, `race` and
`vax` rows. -/
structure VaxState (A R D : Type) where
  age : List A
  race : List R
  vax : List D
deriving DecidableEq, Repr

/-- One `DataFrame.to_sql(..., if_exists='append')` call (`localedb_man.py`
lines 674-676): a single transaction appending all rows; it raises an
`IntegrityError` wrapping a `UniqueViolation` — and then appends nothing —
when an appended row's unique key is already present in the table.
Modelled from the spec: the `vax` schema's uniqueness constraints live in
the database DDL, which is not part of these sources; per the spec each fact
table is keyed by (locale_id, time bucket, categorical dimensions),
abstracted here as the key function `key`. -/
def to_sql_append {α κ : Type} [DecidableEq κ] (key : α → κ)
    (tbl rows : List α) : Except Unit (List α) :=
  if rows.any (fun r => tbl.any (fun x => decide (key x = key r))) then
    .error ()
  else
    .ok (tbl ++ rows)

/-- `VaxSchema.load_vax` (`localedb_man.py` lines 666-679): append the age,
race and vax frames in order inside one `try`; the first `IntegrityError`
(unique violation) jumps to the handler, which prints the
"already loaded" notice (the returned Bool) and swallows the error.  Tables
appended before the failing one keep their new rows (each `to_sql` call is
its own transaction). -/
def load_vax {A KA R KR D KD : Type} [DecidableEq KA] [DecidableEq KR]
    [DecidableEq KD] (keyA : A → KA) (keyR : R → KR) (keyD : D → KD)
    (st : VaxState A R D) (age : List A) (race : List R) (data : List D) :
    VaxState A R D × Bool :=
  match to_sql_append keyA st.age age with
  | .error _ => (st, true)
  | .ok age2 =>
    match to_sql_append keyR st.race race with
    | .error _ => ({ st with age := age2 }, true)
    | .ok race2 =>
      match to_sql_append keyD st.vax data with
      | .error _ => ({ st with age := age2, race := race2 }, true)
      | .ok vax2 => (⟨age2, race2, vax2⟩, false)

/-- Outcome of one iteration of the retry loop of
`WeatherSchema.download_noaa` (`localedb_man.py` lines 803-855), entered
with loop variable `i` (so `i <= max_tries` holds).  On a successful try the
body sets `i = 11` and the trailing `i += 1` makes it 12.  On an exception
the handler tests `i <= max_tries` again: if it holds it sleeps and
`continue`s — skipping the `i += 1` — leaving `i` unchanged; otherwise it
would print "Exceeded ... max download attempts" and `break`. -/
inductive RetryStep
  | next (i : Nat)
  | exhausted
deriving DecidableEq, Repr

/-- One iteration of the `download_noaa` retry loop at loop variable `i`
with the given try outcome. -/
def downloadStep (maxTries : Nat) (success : Bool) (i : Nat) : RetryStep :=
  if success then .next 12
  else if i ≤ maxTries then .next i
  else .exhausted

/-- The `download_noaa` while loop run under `fuel` iterations, where
`succ t` is whether the t-th try (0-based) succeeds: returns
`some (completed, tries)` if the loop exits within the fuel, and `none` if
the fuel is exhausted with the loop still running. -/
def downloadRun (maxTries : Nat) (succ : Nat → Bool) (fuel i tries : Nat) :
    Option (Bool × Nat) :=
  match fuel with
  | 0 => none
  | fuel + 1 =>
    if i ≤ maxTries then
      match downloadStep maxTries (succ tries) i with
      | .next i2 => downloadRun maxTries succ fuel i2 (tries + 1)
      | .exhausted => some (false, tries + 1)
    else
      some (true, tries)

/-- The CSV cell transform used uniformly by the loaders
(`localedb_man.py` lines 238, 276, 345): the empty string becomes NULL. -/
def optOfCell (c : String) : Option String :=
  if c = "" then none else some c

/-- One raw parsed row of the Keystone NPI CSV, fields as strings in their
source column positions: 0 county fips, 1 county name, 2 state, 3 npi type,
4 start date, 5 end date, 6-9 citation/note columns.  Later columns of the
source file are not read by the loader. -/
structure RawNpiRow where
  c0 : String
  c1 : String
  c2 : String
  c3 : String
  c4 : String
  c5 : String
  c6 : String
  c7 : String
  c8 : String
  c9 : String
deriving DecidableEq, Repr

/-- A transformed NPI row: each cell nulled when empty. -/
structure NpiRow where
  c0 : Option String
  c1 : Option String
  c2 : Option String
  c3 : Option String
  c4 : Option String
  c5 : Option String
  c6 : Option String
  c7 : Option String
  c8 : Option String
  c9 : Option String
deriving DecidableEq, Repr

/-- Cell-wise `'' -> None` on an NPI row. -/
def npiRowOfRaw (r : RawNpiRow) : NpiRow :=
  ⟨optOfCell r.c0, optOfCell r.c1, optOfCell r.c2, optOfCell r.c3,
   optOfCell r.c4, optOfCell r.c5, optOfCell r.c6, optOfCell r.c7,
   optOfCell r.c8, optOfCell r.c9⟩

/-- The transform step of `DiseaseSchema.load_covid_19_npi_keystone`
(`localedb_man.py` lines 276-278): keep only rows with a non-empty
start-date cell (column 4), converting empty cells to None. -/
def npiTransform (raws : List RawNpiRow) : List NpiRow :=
  (raws.filter (fun r => decide (r.c4 ≠ ""))).map npiRowOfRaw

/-- The erroneous-value scrub for columns 6-9 (`localedb_man.py` lines
284-286): boolean-looking literals are nulled out. -/
def scrubCell (v : Option String) : Option String :=
  match v with
  | none => none
  | some s =>
    if s.toLower = "t" ∨ s.toLower = "f" ∨ s.toLower = "true" ∨
        s.toLower = "false" then none
    else some s

/-- The per-row cleanup of the NPI loader (`localedb_man.py` lines 283-290):
scrub columns 6-9, then apply the documented encoding-error correction
(county fips 35013 gets county name "Dona Ana"). -/
def npiClean (r : NpiRow) : NpiRow :=
  let r2 : NpiRow :=
    { r with c6 := scrubCell r.c6, c7 := scrubCell r.c7,
             c8 := scrubCell r.c8, c9 := scrubCell r.c9 }
  if r2.c0 = some "35013" then { r2 with c1 := some "Dona Ana" } else r2

/-- The locale query of the NPI loader (`localedb_man.py` line 299):
`admin0 = 'US' AND admin1 = %s AND admin2 IS NOT DISTINCT FROM %s` with
parameters r[2] (state) and r[1] (county) — plain equality on `admin1`
(a NULL parameter matches nothing), null-aware on `admin2`. -/
def npiLocaleMatch (r : NpiRow) (l : Locale) : Bool :=
  decide (l.admin0 = some "US") &&
    (match r.c2 with
     | none => false
     | some s => decide (l.admin1 = some s)) &&
    decide (l.admin2 = r.c1)

/-- The `ETLError` of the NPI loader (`localedb_man.py` line 302): its
message carries the number of locales found, the row ordinal `i`, and the
row's key fields `r[0], r[2], r[1]`. -/
structure EtlErr where
  nFound : Nat
  line : Nat
  f0 : Option String
  f2 : Option String
  f1 : Option String
deriving DecidableEq, Repr

/-- The locale resolution of one cleaned NPI row (`localedb_man.py` lines
298-303): require exactly one matching locale; on any other cardinality
raise `ETLError` with the row context; on success extend the row with the
locale's id. -/
def npiResolveRow (locs : List Locale) (i : Nat) (r : NpiRow) :
    Except EtlErr (NpiRow × Nat) :=
  match locs.filter (npiLocaleMatch r) with
  | [l] => .ok (r, l.id)
  | rr => .error ⟨rr.length, i, r.c0, r.c2, r.c1⟩

/-- The row loop of the NPI loader from ordinal `i`: clean then resolve each
row in order; a raised `ETLError` aborts the loop. -/
def npiResolveAllFrom (locs : List Locale) (i : Nat) (rows : List NpiRow) :
    Except EtlErr (List (NpiRow × Nat)) :=
  match rows with
  | [] => .ok []
  | r :: rest =>
    match npiResolveRow locs i (npiClean r) with
    | .error e => .error e
    | .ok pr =>
      match npiResolveAllFrom locs (i + 1) rest with
      | .error e => .error e
      | .ok prs => .ok (pr :: prs)

/-- The enumerate of the NPI row loop starts at ordinal 0
(`localedb_man.py` line 282). -/
def npiResolveAll (locs : List Locale) (rows : List NpiRow) :
    Except EtlErr (List (NpiRow × Nat)) :=
  npiResolveAllFrom locs 0 rows

/-- The transform-and-resolve pipeline of
`DiseaseSchema.load_covid_19_npi_keystone` (`localedb_man.py` lines
266-304): locale resolution runs over exactly the transformed
(required-field filtered) rows. -/
def load_covid_19_npi_keystone (locs : List Locale) (raws : List RawNpiRow) :
    Except EtlErr (List (NpiRow × Nat)) :=
  npiResolveAll locs (npiTransform raws)

/-- A row of `pop.household`: the columns used by the synthetic-population
read accessors (`st_id`/`co_id` are the enclosing state/county locale ids
set during the load). -/
structure Household where
  id : Nat
  st_id : Option Nat
  co_id : Option Nat
deriving DecidableEq, Repr

/-- A row of `pop.person`: the columns used by the read accessors. -/
structure Person where
  id : Nat
  household_id : Nat
deriving DecidableEq, Repr

/-- The database contents seen by the synthetic-population read accessors. -/
structure PopDb where
  locs : List Locale
  households : List Household
  persons : List Person
deriving Repr

/-- The COUNT(*) of
`SELECT COUNT(*) FROM pop.person p INNER JOIN pop.household h ON
p.household_id = h.id INNER JOIN main.locale l ON h.X_id = l.id WHERE
l.fips = %s` (`localedb.py` lines 273 and 275), with `X = co` when `useCo`
and `X = st` otherwise: the number of (person, household, locale) triples
satisfying the join conditions. -/
def joinCount (db : PopDb) (useCo : Bool) (f : String) : Nat :=
  (db.persons.flatMap (fun p => db.households.flatMap (fun h =>
      db.locs.map (fun l => (p, h, l))))).countP
    (fun t =>
      decide (t.1.household_id = t.2.1.id) &&
        decide ((if useCo then t.2.1.co_id else t.2.1.st_id) = some t.2.2.id) &&
        decide (t.2.2.fips = some f))

/-- `LocaleDB.is_locale_us` (`localedb.py` lines 297-298): a locale is set
and its `iso_num` equals 840. -/
def is_locale_us (s : Session) : Bool :=
  s.locale_id.isSome && decide (s.locale_iso_num = some 840)

/-- `LocaleDB.get_pop_size_synth` (`localedb.py` lines 253-277): -1 for a
non-US (or unset) locale; otherwise the person count of the whole country
(NULL fips), the state (2-digit fips) or the county (5-digit fips); any
other fips length raises `ValueError`. -/
def get_pop_size_synth (db : PopDb) (s : Session) : Except String Int :=
  if !is_locale_us s then .ok (-1)
  else
    match s.locale_fips with
    | none => .ok (db.persons.length : Int)
    | some f =>
      if f.length = 2 then .ok (joinCount db false f : Int)
      else if f.length = 5 then .ok (joinCount db true f : Int)
      else .error "Incorrect FIPS code"

/-! ## Helper lemmas -/

/-- `setCol` does not touch the primary-key columns. -/
theorem dynKeyMatches_setCol (r : DynRow) (c : DynCol) (v : Option String)
    (did lid : Nat) (day : String) :
    dynKeyMatches (r.setCol c v) did lid day = dynKeyMatches r did lid day := by
  cases c <;> rfl

/-- Reading the column just written. -/
theorem getCol_setCol_same (r : DynRow) (c : DynCol) (v : Option String) :
    (r.setCol c v).getCol c = v := by
  cases c <;> rfl

/-- Reading a different column than the one written. -/
theorem getCol_setCol_ne (r : DynRow) (c c' : DynCol) (v : Option String)
    (h : c' ≠ c) : (r.setCol c v).getCol c' = r.getCol c' := by
  cases c <;> cases c' <;> first | rfl | exact absurd rfl h

/-- A freshly inserted dyn row carries its own primary key. -/
theorem dynKeyMatches_mkDynRow (did lid : Nat) (day : String) (dayI : Int)
    (c : DynCol) (v : Option String) :
    dynKeyMatches (mkDynRow did lid day dayI c v) did lid day = true := by
  rw [mkDynRow, dynKeyMatches_setCol]
  simp [dynKeyMatches]

/-- A freshly inserted dyn row holds the contributed value in the
contributed column. -/
theorem getCol_mkDynRow_same (did lid : Nat) (day : String) (dayI : Int)
    (c : DynCol) (v : Option String) :
    (mkDynRow did lid day dayI c v).getCol c = v :=
  getCol_setCol_same _ c v

/-- Inserting never removes rows. -/
theorem mem_insertOnConflictDoNothing {α κ : Type} [DecidableEq κ]
    (key : α → κ) (tbl : List α) (r x : α) (hx : x ∈ tbl) :
    x ∈ insertOnConflictDoNothing key tbl r := by
  unfold insertOnConflictDoNothing
  split
  · exact hx
  · exact List.mem_append_left _ hx

/-- A batch load never removes rows. -/
theorem mem_load_county_txt_files {α κ : Type} [DecidableEq κ] (key : α → κ)
    (tbl rows : List α) (x : α) (hx : x ∈ tbl) :
    x ∈ load_county_txt_files key tbl rows := by
  induction rows generalizing tbl with
  | nil => exact hx
  | cons a rest ih =>
    exact ih _ (mem_insertOnConflictDoNothing key tbl a x hx)

/-- An insert whose key is already present is a no-op. -/
theorem insertOnConflictDoNothing_eq_of_present {α κ : Type} [DecidableEq κ]
    (key : α → κ) (tbl : List α) (r : α) (h : ∃ x ∈ tbl, key x = key r) :
    insertOnConflictDoNothing key tbl r = tbl := by
  unfold insertOnConflictDoNothing
  rw [if_pos]
  rw [List.any_eq_true]
  obtain ⟨x, hx, he⟩ := h
  exact ⟨x, hx, decide_eq_true he⟩

/-- After a batch load, every source row's key is present. -/
theorem key_present_after_load_county {α κ : Type} [DecidableEq κ]
    (key : α → κ) (tbl rows : List α) :
    ∀ r ∈ rows, ∃ x ∈ load_county_txt_files key tbl rows, key x = key r := by
  induction rows generalizing tbl with
  | nil => intro r hr; exact absurd hr (List.not_mem_nil r)
  | cons a rest ih =>
    intro r hr
    rcases List.mem_cons.mp hr with rfl | hr2
    · have hpres : ∃ x ∈ insertOnConflictDoNothing key tbl r, key x = key r := by
        unfold insertOnConflictDoNothing
        split
        · rename_i hAny
          rw [List.any_eq_true] at hAny
          obtain ⟨x, hx, hd⟩ := hAny
          exact ⟨x, hx, of_decide_eq_true hd⟩
        · exact ⟨r, List.mem_append_right _ (List.mem_singleton.mpr rfl), rfl⟩
      obtain ⟨x, hx, he⟩ := hpres
      exact ⟨x, mem_load_county_txt_files key _ rest x hx, he⟩
    · exact ih _ r hr2

/-- A batch load whose every key is already present is a no-op. -/
theorem load_county_txt_files_eq_of_present {α κ : Type} [DecidableEq κ]
    (key : α → κ) (tbl rows : List α)
    (h : ∀ r ∈ rows, ∃ x ∈ tbl, key x = key r) :
    load_county_txt_files key tbl rows = tbl := by
  induction rows with
  | nil => rfl
  | cons a rest ih =>
    have hstep : insertOnConflictDoNothing key tbl a = tbl :=
      insertOnConflictDoNothing_eq_of_present key tbl a (h a (List.mem_cons_self a rest))
    show load_county_txt_files key (insertOnConflictDoNothing key tbl a) rest = tbl
    rw [hstep]
    exact ih (fun r hr => h r (List.mem_cons_of_mem a hr))

/-! ## Claim theorems -/

/-- C4: loading the Locale reference dataset twice in succession with the
same source input leaves the Locale table in the same state as loading it
once — `load_locales_jhu` deletes every existing row and reinserts the full
table from the source, so the second run yields the same table, same row
count and same ids. -/
theorem c4_locale_reload_idempotent (rows : List JhuRow) (tbl : List Locale) :
    load_locales_jhu rows (load_locales_jhu rows tbl) = load_locales_jhu rows tbl ∧
    (load_locales_jhu rows (load_locales_jhu rows tbl)).length =
      (load_locales_jhu rows tbl).length ∧
    (load_locales_jhu rows (load_locales_jhu rows tbl)).map (fun l => l.id) =
      (load_locales_jhu rows tbl).map (fun l => l.id) :=
  ⟨rfl, rfl, rfl⟩

/-- C5: re-running the per-state synthetic-population load with the same
input leaves each destination table unchanged: every destination insert is
`ON CONFLICT DO NOTHING` (insert-if-absent on the table's unique key), so a
second identical batch load inserts nothing and row counts are unchanged. -/
theorem c5_pop_reload_idempotent {α κ : Type} [DecidableEq κ] (key : α → κ)
    (tbl rows : List α) :
    load_county_txt_files key (load_county_txt_files key tbl rows) rows =
      load_county_txt_files key tbl rows ∧
    (load_county_txt_files key (load_county_txt_files key tbl rows) rows).length =
      (load_county_txt_files key tbl rows).length := by
  have hpres := key_present_after_load_county key tbl rows
  have heq := load_county_txt_files_eq_of_present key
    (load_county_txt_files key tbl rows) rows hpres
  exact ⟨heq, by rw [heq]⟩

/-- C1: two disease-dynamics passes contributing different count columns for
the same (disease_id, locale_id, day) merge column-wise: starting from a
staging table with no row for the key, after the first pass contributes
column `c1 = v1` and the second pass column `c2 = v2`, exactly one row
exists for the key and it carries both `v1` and `v2` — the later
insert-on-conflict-update changes only the column it contributes. -/
theorem c1_dyn_column_merge (tbl : List DynRow) (did lid : Nat) (day : String)
    (d1 d2 : Int) (c1 c2 : DynCol) (v1 v2 : Option String)
    (h0 : tbl.countP (fun r => dynKeyMatches r did lid day) = 0)
    (hc : c1 ≠ c2) :
    ((upsertDyn (upsertDyn tbl did lid day d1 c1 v1) did lid day d2 c2 v2).countP
      (fun r => dynKeyMatches r did lid day) = 1) ∧
    (∀ r ∈ upsertDyn (upsertDyn tbl did lid day d1 c1 v1) did lid day d2 c2 v2,
      dynKeyMatches r did lid day = true →
        r.getCol c1 = v1 ∧ r.getCol c2 = v2) := by
  have hnomatch : ∀ r ∈ tbl, ¬ (dynKeyMatches r did lid day = true) :=
    List.countP_eq_zero.mp h0
  have hany : tbl.any (fun r => dynKeyMatches r did lid day) = false := by
    rw [Bool.eq_false_iff]
    intro hcontra
    rw [List.any_eq_true] at hcontra
    obtain ⟨x, hx, hpx⟩ := hcontra
    exact hnomatch x hx hpx
  have ht1 : upsertDyn tbl did lid day d1 c1 v1 =
      tbl ++ [mkDynRow did lid day d1 c1 v1] := by
    unfold upsertDyn
    rw [hany]
    rfl
  have hany2 : (tbl ++ [mkDynRow did lid day d1 c1 v1]).any
      (fun r => dynKeyMatches r did lid day) = true := by
    rw [List.any_eq_true]
    exact ⟨mkDynRow did lid day d1 c1 v1,
      List.mem_append_right _ (List.mem_singleton.mpr rfl),
      dynKeyMatches_mkDynRow did lid day d1 c1 v1⟩
  have ht2 : upsertDyn (upsertDyn tbl did lid day d1 c1 v1) did lid day d2 c2 v2 =
      tbl.map (fun r => if dynKeyMatches r did lid day then r.setCol c2 v2 else r) ++
        [(mkDynRow did lid day d1 c1 v1).setCol c2 v2] := by
    rw [ht1]
    unfold upsertDyn
    rw [hany2]
    simp only [if_pos]
    rw [List.map_append]
    congr 1
    simp [dynKeyMatches_mkDynRow did lid day d1 c1 v1]
  have hmapfix : tbl.map
      (fun r => if dynKeyMatches r did lid day then r.setCol c2 v2 else r) = tbl := by
    conv_rhs => rw [show tbl = tbl.map id from (List.map_id tbl).symm]
    apply List.map_congr_left
    intro a ha
    rw [if_neg (hnomatch a ha)]
    rfl
  have hrow2key : dynKeyMatches ((mkDynRow did lid day d1 c1 v1).setCol c2 v2)
      did lid day = true := by
    rw [dynKeyMatches_setCol]
    exact dynKeyMatches_mkDynRow did lid day d1 c1 v1
  rw [ht2, hmapfix]
  constructor
  · rw [List.countP_append, h0]
    simp [List.countP_cons, hrow2key]
  · intro r hr hkey
    rcases List.mem_append.mp hr with hmem | hmem
    · exact absurd hkey (hnomatch r hmem)
    · have hreq : r = (mkDynRow did lid day d1 c1 v1).setCol c2 v2 :=
        List.mem_singleton.mp hmem
      subst hreq
      refine ⟨?_, getCol_setCol_same _ c2 v2⟩
      rw [getCol_setCol_ne _ c2 c1 v2 hc]
      exact getCol_mkDynRow_same did lid day d1 c1 v1

/-- C1 witness: the spec scenario — disease 1, locale 2, day 2020-03-01,
first pass contributing `n_conf = 10`, second pass `n_dead = 2` — from an
empty staging table, at concrete inputs. -/
theorem c1_dyn_column_merge_witness :
    (([] : List DynRow).countP (fun r => dynKeyMatches r 1 2 "2020-03-01") = 0) ∧
    ((upsertDyn (upsertDyn [] 1 2 "2020-03-01" 1 DynCol.nConf (some "10"))
        1 2 "2020-03-01" 1 DynCol.nDead (some "2")).countP
      (fun r => dynKeyMatches r 1 2 "2020-03-01") = 1) :=
  ⟨by decide,
   (c1_dyn_column_merge [] 1 2 "2020-03-01" 1 1 DynCol.nConf DynCol.nDead
     (some "10") (some "2") (by decide) (by decide)).1⟩

/-- C2 counterexample: with two Locale rows both matching the name key
(US, Ohio, NULL) — a Locale-table integrity violation — `set_locale_by_name`
does not fail: it silently sets the session from the first matching row.
No `LocaleIntegrityError` exists in the code, refuting the claim that the
operation fails loudly. -/
theorem c2_multiple_match_counterexample :
    (([⟨1, none, none, some 840, some "39", some "US", some "Ohio", none, none, none, none⟩,
       ⟨2, none, none, some 840, some "39", some "US", some "Ohio", none, none, none, none⟩] :
        List Locale).filter (nameMatch "US" (some "Ohio") none)).length = 2 ∧
    set_locale_by_name
      [⟨1, none, none, some 840, some "39", some "US", some "Ohio", none, none, none, none⟩,
       ⟨2, none, none, some 840, some "39", some "US", some "Ohio", none, none, none, none⟩]
      ⟨none, none, none⟩ "US" (some "Ohio") none =
      .ok ⟨some 1, some 840, some "39"⟩ :=
  ⟨by decide, rfl⟩

/-- C2 amended: whenever at least one Locale row matches the name key (in
particular when more than one matches), both `set_locale_by_name` and the
disease-dynamics loader lookup silently proceed with the first row of the
result set; neither performs any multiplicity check and no
`LocaleIntegrityError` exists. -/
theorem c2_first_match_amended (locs : List Locale) (s : Session) (a0 : String)
    (a1 a2 : Option String) (l : Locale) (rest : List Locale) (did : Nat)
    (c : DynCol) (r : GlobRow) (more : List GlobRow) (tbl : List DynRow)
    (l2 : Locale) (rest2 : List Locale)
    (h1 : locs.filter (nameMatch a0 a1 a2) = l :: rest)
    (h2 : locs.filter (fun x => globLocaleMatch x r) = l2 :: rest2) :
    set_locale_by_name locs s a0 a1 a2 = .ok ⟨some l.id, l.iso_num, l.fips⟩ ∧
    loadDynDsGlob locs did c (r :: more) tbl =
      loadDynDsGlob locs did c more (applyGlobRowVals tbl did l2.id c r.vals) := by
  constructor
  · unfold set_locale_by_name
    rw [h1]
    rfl
  · show (match (locs.filter (fun l => globLocaleMatch l r)).head? with
      | none => DsResult.exit 1 [r.admin1, r.admin0]
      | some l => loadDynDsGlob locs did c more (applyGlobRowVals tbl did l.id c r.vals)) =
      loadDynDsGlob locs did c more (applyGlobRowVals tbl did l2.id c r.vals)
    rw [h2]
    rfl

/-- C2 witness for the amended claim: the two-row Ohio table, where the
name query and the loader query both match both rows and both operations
proceed with the row of id 1. -/
theorem c2_first_match_amended_witness :
    set_locale_by_name
      [⟨1, none, none, some 840, some "39", some "US", some "Ohio", none, none, none, none⟩,
       ⟨2, none, none, some 840, some "39", some "US", some "Ohio", none, none, none, none⟩]
      ⟨none, none, none⟩ "US" (some "Ohio") none =
      .ok ⟨some 1, some 840, some "39"⟩ ∧
    loadDynDsGlob
      [⟨1, none, none, some 840, some "39", some "US", some "Ohio", none, none, none, none⟩,
       ⟨2, none, none, some 840, some "39", some "US", some "Ohio", none, none, none, none⟩]
      7 DynCol.nConf [⟨some "Ohio", some "US", []⟩] [] =
      loadDynDsGlob
        [⟨1, none, none, some 840, some "39", some "US", some "Ohio", none, none, none, none⟩,
         ⟨2, none, none, some 840, some "39", some "US", some "Ohio", none, none, none, none⟩]
        7 DynCol.nConf []
        (applyGlobRowVals [] 7 1 DynCol.nConf []) := by
  have h := c2_first_match_amended
    [⟨1, none, none, some 840, some "39", some "US", some "Ohio", none, none, none, none⟩,
     ⟨2, none, none, some 840, some "39", some "US", some "Ohio", none, none, none, none⟩]
    ⟨none, none, none⟩ "US" (some "Ohio") none
    ⟨1, none, none, some 840, some "39", some "US", some "Ohio", none, none, none, none⟩
    [⟨2, none, none, some 840, some "39", some "US", some "Ohio", none, none, none, none⟩]
    7 DynCol.nConf ⟨some "Ohio", some "US", []⟩ [] []
    ⟨1, none, none, some 840, some "39", some "US", some "Ohio", none, none, none, none⟩
    [⟨2, none, none, some 840, some "39", some "US", some "Ohio", none, none, none, none⟩]
    (by decide) (by decide)
  exact h

/-- C3 counterexample: a two-dataset run where the first pass hits a source
row with an unresolvable key and the second pass's row resolves fine.  The
whole run terminates with process exit code 1: the second dataset is never
loaded and nothing is committed, refuting the claim that the failure is
scoped to the failing dataset only (the second pass here has no failing
row and is not a prerequisite of anything). -/
theorem c3_dataset_scope_counterexample :
    runDatasets
      [⟨2, none, none, some 840, some "840", some "US", none, none, none, none, none⟩] 1
      [(DynCol.nConf, [⟨none, some "Narnia", [("3/1/20", some "5")]⟩]),
       (DynCol.nDead, [⟨none, some "US", [("3/1/20", some "7")]⟩])] [] =
      DsResult.exit 1 [none, some "Narnia"] ∧
    committedDyn []
      (runDatasets
        [⟨2, none, none, some 840, some "840", some "US", none, none, none, none, none⟩] 1
        [(DynCol.nConf, [⟨none, some "Narnia", [("3/1/20", some "5")]⟩]),
         (DynCol.nDead, [⟨none, some "US", [("3/1/20", some "7")]⟩])] []) = [] :=
  ⟨rfl, rfl⟩

/-- C3 amended: when a source row's geographic key has zero matches in the
Locale table during a disease-dynamics pass, the pass reports the offending
key fields and the transaction is rolled back (the committed table is
unchanged) — but the failure is a process exit with code 1, not a
`LocaleNotFound` exception, and it aborts the remainder of the multi-dataset
run: the result of the whole run is the exit of the first unresolved row. -/
theorem c3_exit_on_unresolved_amended (locs : List Locale) (did : Nat)
    (c : DynCol) (rows : List GlobRow) (tbl : List DynRow)
    (rest : List (DynCol × List GlobRow)) (r : GlobRow)
    (h : rows.find?
        (fun row => ((locs.filter (fun l => globLocaleMatch l row)).head?).isNone) =
      some r) :
    loadDynDsGlob locs did c rows tbl = .exit 1 [r.admin1, r.admin0] ∧
    runDatasets locs did ((c, rows) :: rest) tbl = .exit 1 [r.admin1, r.admin0] ∧
    committedDyn tbl (runDatasets locs did ((c, rows) :: rest) tbl) = tbl := by
  have hload : loadDynDsGlob locs did c rows tbl = .exit 1 [r.admin1, r.admin0] := by
    induction rows generalizing tbl with
    | nil => simp at h
    | cons a rest2 ih =>
      by_cases ha : ((locs.filter (fun l => globLocaleMatch l a)).head?).isNone = true
      · rw [List.find?_cons_of_pos
            (p := fun row => ((locs.filter (fun l => globLocaleMatch l row)).head?).isNone)
            rest2 ha] at h
        have hra : a = r := Option.some.inj h
        subst hra
        rw [Option.isNone_iff_eq_none] at ha
        show (match (locs.filter (fun l => globLocaleMatch l a)).head? with
          | none => DsResult.exit 1 [a.admin1, a.admin0]
          | some l =>
            loadDynDsGlob locs did c rest2 (applyGlobRowVals tbl did l.id c a.vals)) =
          DsResult.exit 1 [a.admin1, a.admin0]
        rw [ha]
      · rw [List.find?_cons_of_neg
            (p := fun row => ((locs.filter (fun l => globLocaleMatch l row)).head?).isNone)
            rest2 ha] at h
        rcases ho : (locs.filter (fun l => globLocaleMatch l a)).head? with _ | l
        · rw [ho, Option.isNone_none] at ha
          exact absurd rfl ha
        · show (match (locs.filter (fun l => globLocaleMatch l a)).head? with
            | none => DsResult.exit 1 [a.admin1, a.admin0]
            | some l =>
              loadDynDsGlob locs did c rest2 (applyGlobRowVals tbl did l.id c a.vals)) =
            DsResult.exit 1 [r.admin1, r.admin0]
          rw [ho]
          exact ih _ h
  have hrun : runDatasets locs did ((c, rows) :: rest) tbl =
      .exit 1 [r.admin1, r.admin0] := by
    show (match loadDynDsGlob locs did c rows tbl with
      | .ok tbl2 => runDatasets locs did rest tbl2
      | .exit code key => .exit code key) = DsResult.exit 1 [r.admin1, r.admin0]
    rw [hload]
  exact ⟨hload, hrun, by rw [hrun]; rfl⟩

/-- C3 witness for the amended claim: the concrete two-dataset run of the
counterexample, where the first pass's only row is unresolvable. -/
theorem c3_exit_on_unresolved_amended_witness :
    loadDynDsGlob
      [⟨2, none, none, some 840, some "840", some "US", none, none, none, none, none⟩] 1
      DynCol.nConf [⟨none, some "Narnia", [("3/1/20", some "5")]⟩] [] =
      DsResult.exit 1 [none, some "Narnia"] ∧
    runDatasets
      [⟨2, none, none, some 840, some "840", some "US", none, none, none, none, none⟩] 1
      [(DynCol.nConf, [⟨none, some "Narnia", [("3/1/20", some "5")]⟩]),
       (DynCol.nDead, [⟨none, some "US", [("3/1/20", some "7")]⟩])] [] =
      DsResult.exit 1 [none, some "Narnia"] := by
  have h := c3_exit_on_unresolved_amended
    [⟨2, none, none, some 840, some "840", some "US", none, none, none, none, none⟩] 1
    DynCol.nConf [⟨none, some "Narnia", [("3/1/20", some "5")]⟩] []
    [(DynCol.nDead, [⟨none, some "US", [("3/1/20", some "7")]⟩])]
    ⟨none, some "Narnia", [("3/1/20", some "5")]⟩ (by decide)
  exact ⟨h.1, h.2.1⟩

/-- C6: resolving an NPI source row against the Locale table requires
exactly one match.  When the number of matching rows differs from one (zero,
or two or more), an `ETLError` is raised carrying the row ordinal and the
row's raw key fields `r[0], r[2], r[1]`, and no guessed match is used; a row
with exactly one match is extended with that locale's id. -/
theorem c6_npi_resolution (locs : List Locale) (i : Nat) (r : NpiRow) :
    (∀ l : Locale, locs.filter (npiLocaleMatch r) = [l] →
      npiResolveRow locs i r = .ok (r, l.id)) ∧
    ((locs.filter (npiLocaleMatch r)).length ≠ 1 →
      npiResolveRow locs i r =
        .error ⟨(locs.filter (npiLocaleMatch r)).length, i, r.c0, r.c2, r.c1⟩) := by
  constructor
  · intro l hl
    unfold npiResolveRow
    rw [hl]
  · intro hne
    unfold npiResolveRow
    rcases hf : locs.filter (npiLocaleMatch r) with _ | ⟨l1, _ | ⟨l2, t⟩⟩
    · rfl
    · rw [hf] at hne
      exact absurd rfl hne
    · rfl

/-- C6 witness: an empty Locale table (zero matches) at a concrete row —
the load raises the `ETLError` with the row's ordinal and raw key fields. -/
theorem c6_npi_resolution_witness :
    (([] : List Locale).filter
      (npiLocaleMatch ⟨some "42003", some "Allegheny", some "Pennsylvania",
        some "0", some "2020-03-16", none, none, none, none, none⟩)).length ≠ 1 ∧
    npiResolveRow [] 3
      ⟨some "42003", some "Allegheny", some "Pennsylvania",
        some "0", some "2020-03-16", none, none, none, none, none⟩ =
      .error ⟨0, 3, some "42003", some "Pennsylvania", some "Allegheny"⟩ :=
  ⟨by decide,
   (c6_npi_resolution [] 3
     ⟨some "42003", some "Allegheny", some "Pennsylvania",
       some "0", some "2020-03-16", none, none, none, none, none⟩).2 (by decide)⟩

/-- C7: the `download_noaa` retry loop does not terminate after `max_tries`
failed attempts.  With `max_tries = 5` (as invoked from `get_files`) and
every attempt failing, the loop is still running after any number of
iterations: the exception handler's `i <= max_tries` test always holds
inside the loop and its `continue` skips the `i += 1`, so the loop variable
never advances and the "Exceeded ... max download attempts" branch is
unreachable — the code retries forever instead of surfacing the failure
after the bounded retry budget. -/
theorem c7_retry_never_terminates (fuel tries : Nat) :
    downloadRun 5 (fun _ => false) fuel 1 tries = none := by
  induction fuel generalizing tries with
  | zero => rfl
  | succ n ih =>
    show (if 1 ≤ 5 then
        match downloadStep 5 false 1 with
        | .next i2 => downloadRun 5 (fun _ => false) n i2 (tries + 1)
        | .exhausted => some (false, tries + 1)
      else some (true, tries)) = none
    rw [if_pos (by omega)]
    show downloadRun 5 (fun _ => false) n 1 (tries + 1) = none
    exact ih (tries + 1)

/-- A succeeding `to_sql` append is the concatenation. -/
theorem to_sql_append_ok {α κ : Type} [DecidableEq κ] (key : α → κ)
    (tbl rows tbl2 : List α) (h : to_sql_append key tbl rows = .ok tbl2) :
    tbl2 = tbl ++ rows := by
  unfold to_sql_append at h
  split at h
  · exact absurd h (by simp)
  · exact (Except.ok.inj h).symm

/-- A `to_sql` append raises a unique violation when some appended row's key
is already present. -/
theorem to_sql_append_error {α κ : Type} [DecidableEq κ] (key : α → κ)
    (tbl rows : List α) (h : ∃ r ∈ rows, ∃ x ∈ tbl, key x = key r) :
    to_sql_append key tbl rows = .error () := by
  unfold to_sql_append
  rw [if_pos]
  rw [List.any_eq_true]
  obtain ⟨r, hr, x, hx, he⟩ := h
  refine ⟨r, hr, ?_⟩
  rw [List.any_eq_true]
  exact ⟨x, hx, decide_eq_true he⟩

/-- C8: running the append-only vaccination load twice with identical input
is a no-op the second time: if the first run succeeded (no notice) and the
input is non-empty, the second run hits the uniqueness conflict on its first
append, the conflict is caught and reported as the "already loaded" notice
(the `true` flag), the state — in particular the `vax` row count — is
unchanged, and no error escapes to the caller (the function returns
normally). -/
theorem c8_vax_reload_noop {A KA R KR D KD : Type} [DecidableEq KA]
    [DecidableEq KR] [DecidableEq KD] (keyA : A → KA) (keyR : R → KR)
    (keyD : D → KD) (st0 st1 : VaxState A R D) (age : List A) (race : List R)
    (data : List D)
    (h1 : load_vax keyA keyR keyD st0 age race data = (st1, false))
    (h2 : age ≠ []) :
    load_vax keyA keyR keyD st1 age race data = (st1, true) ∧
    (load_vax keyA keyR keyD st1 age race data).1.vax.length = st1.vax.length := by
  unfold load_vax at h1
  rcases hA : to_sql_append keyA st0.age age with u | age2 <;> rw [hA] at h1
  · simp at h1
  rcases hR : to_sql_append keyR st0.race race with u | race2 <;> rw [hR] at h1
  · simp at h1
  rcases hD : to_sql_append keyD st0.vax data with u | vax2 <;> rw [hD] at h1
  · simp at h1
  have hst1 : st1 = ⟨age2, race2, vax2⟩ := by
    have := (Prod.mk.injEq _ _ _ _).mp h1
    exact this.1.symm
  have hage2 : age2 = st0.age ++ age := to_sql_append_ok keyA _ _ _ hA
  rcases age with _ | ⟨a, arest⟩
  · exact absurd rfl h2
  have herr : to_sql_append keyA st1.age (a :: arest) = .error () := by
    apply to_sql_append_error
    refine ⟨a, List.mem_cons_self a arest, a, ?_, rfl⟩
    rw [hst1]
    show a ∈ age2
    rw [hage2]
    exact List.mem_append_right _ (List.mem_cons_self a arest)
  have hrun2 : load_vax keyA keyR keyD st1 (a :: arest) race data = (st1, true) := by
    unfold load_vax
    rw [herr]
  exact ⟨hrun2, by rw [hrun2]⟩

/-- C8 witness: concrete one-row tables over `Nat` keys; the first run
succeeds and the second run is the reported no-op. -/
theorem c8_vax_reload_noop_witness :
    load_vax (id : Nat → Nat) (id : Nat → Nat) (id : Nat → Nat)
      ⟨[10], [20], [30]⟩ [11] [21] [31] = (⟨[10, 11], [20, 21], [30, 31]⟩, false) ∧
    load_vax (id : Nat → Nat) (id : Nat → Nat) (id : Nat → Nat)
      ⟨[10, 11], [20, 21], [30, 31]⟩ [11] [21] [31] =
      (⟨[10, 11], [20, 21], [30, 31]⟩, true) :=
  ⟨by decide,
   (c8_vax_reload_noop (id : Nat → Nat) (id : Nat → Nat) (id : Nat → Nat)
     ⟨[10], [20], [30]⟩ ⟨[10, 11], [20, 21], [30, 31]⟩ [11] [21] [31]
     (by decide) (by decide)).1⟩

/-- C9: the NPI load drops rows with an empty required start-date field
during the transform step, before any locale resolution: the load runs
resolution over exactly the transformed rows, every transformed row has a
non-null start-date cell (column 4), and the per-row cleanup applied just
before resolution never touches that cell. -/
theorem c9_npi_filter_before_resolution (locs : List Locale)
    (raws : List RawNpiRow) :
    load_covid_19_npi_keystone locs raws = npiResolveAll locs (npiTransform raws) ∧
    (∀ r ∈ npiTransform raws, r.c4 ≠ none) ∧
    (∀ r : NpiRow, (npiClean r).c4 = r.c4) := by
  refine ⟨rfl, ?_, ?_⟩
  · intro r hr
    rw [npiTransform, List.mem_map] at hr
    obtain ⟨raw, hraw, hmap⟩ := hr
    rw [List.mem_filter] at hraw
    have hne : raw.c4 ≠ "" := of_decide_eq_true hraw.2
    rw [← hmap]
    show optOfCell raw.c4 ≠ none
    rw [optOfCell, if_neg hne]
    exact Option.some_ne_none _
  · intro r
    rw [npiClean]
    split <;> rfl

/-- C9 witness: a concrete raw row with a start date passes the filter and
reaches resolution with its start-date cell non-null; at concrete inputs. -/
theorem c9_npi_filter_before_resolution_witness :
    (npiRowOfRaw ⟨"35013", "Dona Ana", "New Mexico", "school_closure",
      "2020-03-16", "", "", "", "", ""⟩).c4 ≠ none :=
  (c9_npi_filter_before_resolution []
    [⟨"35013", "Dona Ana", "New Mexico", "school_closure",
      "2020-03-16", "", "", "", "", ""⟩]).2.1
    (npiRowOfRaw ⟨"35013", "Dona Ana", "New Mexico", "school_closure",
      "2020-03-16", "", "", "", "", ""⟩) (by decide)

/-- C10: `get_pop_size_synth` returns -1 exactly when the session's locale
is not a US locale (no locale set, or `iso_num` different from 840); for a
US locale it returns a non-negative person count — the whole-country count
for a NULL fips, the state join count for a 2-character fips, the county
join count for a 5-character fips — and raises `ValueError` for any other
fips length. -/
theorem c10_get_pop_size_synth (db : PopDb) (s : Session) :
    (s.locale_id = none → is_locale_us s = false) ∧
    (is_locale_us s = false → get_pop_size_synth db s = .ok (-1)) ∧
    (is_locale_us s = true → s.locale_fips = none →
      get_pop_size_synth db s = .ok (db.persons.length : Int) ∧
        (0 : Int) ≤ (db.persons.length : Int)) ∧
    (∀ f : String, is_locale_us s = true → s.locale_fips = some f →
      f.length = 2 →
      get_pop_size_synth db s = .ok (joinCount db false f : Int) ∧
        (0 : Int) ≤ (joinCount db false f : Int)) ∧
    (∀ f : String, is_locale_us s = true → s.locale_fips = some f →
      f.length = 5 →
      get_pop_size_synth db s = .ok (joinCount db true f : Int) ∧
        (0 : Int) ≤ (joinCount db true f : Int)) ∧
    (∀ f : String, is_locale_us s = true → s.locale_fips = some f →
      f.length ≠ 2 → f.length ≠ 5 →
      get_pop_size_synth db s = .error "Incorrect FIPS code") := by
  refine ⟨?_, ?_, ?_, ?_, ?_, ?_⟩
  · intro hid
    rw [is_locale_us, hid]
    rfl
  · intro hus
    rw [get_pop_size_synth, hus]
    rfl
  · intro hus hf
    rw [get_pop_size_synth, hus, hf]
    exact ⟨rfl, Int.natCast_nonneg _⟩
  · intro f hus hf hlen
    rw [get_pop_size_synth, hus, hf]
    simp only [Bool.not_true, Bool.false_eq_true, if_false]
    rw [if_pos hlen]
    exact ⟨rfl, Int.natCast_nonneg _⟩
  · intro f hus hf hlen
    rw [get_pop_size_synth, hus, hf]
    simp only [Bool.not_true, Bool.false_eq_true, if_false]
    rw [if_neg (by omega), if_pos hlen]
    exact ⟨rfl, Int.natCast_nonneg _⟩
  · intro f hus hf h2 h5
    rw [get_pop_size_synth, hus, hf]
    simp only [Bool.not_true, Bool.false_eq_true, if_false]
    rw [if_neg h2, if_neg h5]

/-- C10 witness: a non-US session returns -1 and a US state session (fips
"42") returns the non-negative state join count, on a concrete database. -/
theorem c10_get_pop_size_synth_witness :
    get_pop_size_synth
      ⟨[⟨3, none, none, some 380, none, some "Italy", none, none, none, none, none⟩], [], [⟨1, 1⟩]⟩
      ⟨some 3, some 380, none⟩ = .ok (-1) ∧
    get_pop_size_synth
      ⟨[⟨4, none, none, some 840, some "42", some "US", some "Pennsylvania", none, none, none, none⟩],
        [⟨1, some 4, none⟩], [⟨1, 1⟩]⟩
      ⟨some 4, some 840, some "42"⟩ =
      .ok (joinCount
        ⟨[⟨4, none, none, some 840, some "42", some "US", some "Pennsylvania", none, none, none, none⟩],
          [⟨1, some 4, none⟩], [⟨1, 1⟩]⟩ false "42" : Int) :=
  ⟨(c10_get_pop_size_synth
      ⟨[⟨3, none, none, some 380, none, some "Italy", none, none, none, none, none⟩], [], [⟨1, 1⟩]⟩
      ⟨some 3, some 380, none⟩).2.1 (by decide),
   ((c10_get_pop_size_synth
      ⟨[⟨4, none, none, some 840, some "42", some "US", some "Pennsylvania", none, none, none, none⟩],
        [⟨1, some 4, none⟩], [⟨1, 1⟩]⟩
      ⟨some 4, some 840, some "42"⟩).2.2.2.1 "42" (by decide) rfl (by decide)).1⟩

end LocaleDB
